import Mathlib

/-!
Verification of the autonomous fail-safe return controller of the
remote-controlled delivery vehicle (BolesMedhat/AVR-Projects,
`ATmega32/delivery_car/Code/APP/APP.c` together with `APP_def.h`,
`MOTOR_def.h`, `MOTOR.c` and `TIMER0.c`).

The embedding is a shallow functional model of the C globals and of the
interrupt handlers / main-loop functions that operate on them.  Machine
integers are modelled as `Nat` with explicit `% 2^w` where the C code can
actually overflow or truncate (bit-field stores, `uint8`/`uint16`
assignments); an interrupt occurrence is one application of the
corresponding Lean function; one Timebase (TIMER0, prescaled) tick is one
application of `tick`.
-/

set_option autoImplicit false

namespace DeliveryCar

/-! ### Constants from `APP_def.h` (UART command bytes are ASCII) -/

/-- `'1'` — move forward. -/
def FORWARD : Nat := 49

/-- `'2'` — move backward. -/
def BACKWARD : Nat := 50

/-- `'3'` — stop both motors. -/
def STOP : Nat := 51

/-- `'4'` — steer right. -/
def STEER_RIGHT : Nat := 52

/-- `'5'` — steer left. -/
def STEER_LEFT : Nat := 53

/-- `'6'` — gear up. -/
def GEARUP : Nat := 54

/-- `'7'` — gear down. -/
def GEARDOWN : Nat := 55

/-- `'8'` — clear the LCD. -/
def CLR_SCREEN : Nat := 56

/-- `'9'` — receive an LCD message over UART. -/
def SEND_LCD : Nat := 57

/-- `';'` — start reverse playback of the recorded path. -/
def REVERSE : Nat := 59

/-- `'o'` — buzzer on. -/
def BUZZER_ON : Nat := 111

/-- `'f'` — buzzer off. -/
def BUZZER_OFF : Nat := 102

/-- Maximum number of moves stored for reverse playback (`MAX_MOVES`). -/
def MAX_MOVES : Nat := 300

/-- Maximum gear level (`MAX_GEAR`). -/
def MAX_GEAR : Nat := 5

/-- Minimum gear level (`MIN_GEAR`). -/
def MIN_GEAR : Nat := 1

/-! ### Constants from `MOTOR_def.h` (directions for `MOTOR_SET_Direction`) -/

/-- `MOTOR_FORWARD` direction code. -/
def MOTOR_FORWARD : Nat := 0

/-- `MOTOR_BACKWARD` direction code. -/
def MOTOR_BACKWARD : Nat := 1

/-- `MOTOR_STOP` direction code. -/
def MOTOR_STOP : Nat := 2

/-- `MOTOR_TURN_RIGHT` direction code. -/
def MOTOR_TURN_RIGHT : Nat := 3

/-- `MOTOR_TURN_LEFT` direction code. -/
def MOTOR_TURN_LEFT : Nat := 4

/-! ### Data model -/

/-- `struct reverse` from `APP_def.h`: one bit-packed movement record,
`mode : 3` bits, `gear : 3` bits, `ovfs : 16` bits, `tcnt : 8` bits.
The truncation a C bit-field store performs is applied at the point the
record is built (`Save_Move`). -/
structure reverse where
  mode : Nat
  gear : Nat
  ovfs : Nat
  tcnt : Nat
deriving DecidableEq, Inhabited

/-- The physical drive primitive most recently applied to the two motors,
abstracting the `MOTOR_Both*` / `MOTOR_Turn*` pin patterns of `MOTOR.c`. -/
inductive MotorAct where
  | bothForward
  | bothBackward
  | bothStop
  | turnRight
  | turnLeft
deriving DecidableEq

/-- `MOTOR_SET_Direction` from `MOTOR.c`: dispatch a numeric direction code
to a drive primitive.  Any code other than `MOTOR_FORWARD`,
`MOTOR_BACKWARD`, `MOTOR_TURN_RIGHT`, `MOTOR_TURN_LEFT` falls through to
the final `else` and stops both motors. -/
def MOTOR_SET_Direction (d : Nat) : MotorAct :=
  if d = MOTOR_FORWARD then MotorAct.bothForward
  else if d = MOTOR_BACKWARD then MotorAct.bothBackward
  else if d = MOTOR_TURN_RIGHT then MotorAct.turnRight
  else if d = MOTOR_TURN_LEFT then MotorAct.turnLeft
  else MotorAct.bothStop

/-- Which function is bound as the TIMER0 overflow callback. -/
inductive Timer0Cb where
  | checkConnection
  | backReverse
deriving DecidableEq

/-- Which function is bound as the UART receive callback. -/
inductive UartCb where
  | getCmd
  | getLcdMsg
deriving DecidableEq

/-- The controller state: the global variables of `APP.c` (plus the static
locals of `Check_Connection` and `Back_Reverse` and the relevant hardware
registers).  `stack` lists `stack[0..top-1]` most-recent-first, so
`stack.length` is `top` and the list head is `stack[top-1]`. -/
structure Sys where
  gear : Nat
  command : Nat
  reversed_mode : Nat
  stack : List reverse
  tcnt0 : Nat
  g_ovf : Nat
  ovfCounts : Nat
  tcntG : Nat
  ccCounter : Nat
  brCounter : Nat
  car_connected : Bool
  uartRxEnabled : Bool
  uartCb : UartCb
  timer0Cb : Timer0Cb
  timer0On : Bool
  front_blocked : Bool
  back_blocked : Bool
  ocr2 : Nat
  motor : MotorAct
  buzzer : Bool
  resetReq : Bool
deriving DecidableEq

/-! ### Operations from `APP.c` -/

/-- `Save_Move`: if the remembered inverse motion is not `STOP` and the
stack is not full, store a record of the superseded motion (bit-field
stores truncate: `mode`/`gear` to 3 bits, `ovfs` to 16, `tcnt` to 8) and
increment `top`; in every case `TIMER0_RESET()` zeroes `TCNT0` and
`g_TIMER0_Overflow`. -/
def Save_Move (s : Sys) : Sys :=
  if s.reversed_mode ≠ STOP ∧ s.stack.length < MAX_MOVES then
    { s with
        stack := reverse.mk (s.reversed_mode % 8) (s.gear % 8)
                   (s.g_ovf % 65536) (s.tcnt0 % 256) :: s.stack,
        tcnt0 := 0, g_ovf := 0 }
  else
    { s with tcnt0 := 0, g_ovf := 0 }

/-- `UART_Get_Cmd`: the UART receive handler.  It first stores the byte in
`command` and sets `car_connected = true`, then dispatches on the byte;
motion commands drive the motors, push the superseded motion's record and
remember the new motion's inverse; `REVERSE` hands the overflow callback to
`Back_Reverse` with `ovfCounts = 0` and `TCNT0 = 255`. -/
def UART_Get_Cmd (b : Nat) (s : Sys) : Sys :=
  if b = FORWARD then
    { Save_Move { s with command := b, car_connected := true,
                         motor := MotorAct.bothForward } with
        reversed_mode := BACKWARD }
  else if b = BACKWARD then
    { Save_Move { s with command := b, car_connected := true,
                         motor := MotorAct.bothBackward } with
        reversed_mode := FORWARD }
  else if b = STOP then
    { Save_Move { s with command := b, car_connected := true,
                         motor := MotorAct.bothStop } with
        reversed_mode := STOP }
  else if b = STEER_RIGHT then
    { Save_Move { s with command := b, car_connected := true,
                         motor := MotorAct.turnRight } with
        reversed_mode := STEER_LEFT }
  else if b = STEER_LEFT then
    { Save_Move { s with command := b, car_connected := true,
                         motor := MotorAct.turnLeft } with
        reversed_mode := STEER_RIGHT }
  else if b = GEARUP then
    if s.gear < MAX_GEAR then
      Save_Move { s with command := b, car_connected := true,
                         gear := s.gear + 1,
                         ocr2 := (51 * (s.gear + 1)) % 256 }
    else { s with command := b, car_connected := true }
  else if b = GEARDOWN then
    if s.gear > MIN_GEAR then
      Save_Move { s with command := b, car_connected := true,
                         gear := s.gear - 1,
                         ocr2 := (51 * (s.gear - 1)) % 256 }
    else { s with command := b, car_connected := true }
  else if b = CLR_SCREEN then
    { s with command := b, car_connected := true }
  else if b = SEND_LCD then
    { s with command := b, car_connected := true, uartCb := UartCb.getLcdMsg }
  else if b = REVERSE then
    { Save_Move { s with command := b, car_connected := true } with
        motor := MotorAct.bothStop, uartRxEnabled := false,
        timer0Cb := Timer0Cb.backReverse, ovfCounts := 0, tcnt0 := 255 }
  else if b = BUZZER_ON then
    { s with command := b, car_connected := true, buzzer := true }
  else if b = BUZZER_OFF then
    { s with command := b, car_connected := true, buzzer := false }
  else
    { s with command := b, car_connected := true }

/-- `UART_Get_LCD_msg`: message reception completed; rebind the UART
callback to `UART_Get_Cmd` and mark the link alive (the LCD printing has no
controller-visible effect). -/
def UART_Get_LCD_msg (s : Sys) : Sys :=
  { s with uartCb := UartCb.getCmd, car_connected := true }

/-- `Check_Connection`: TIMER0-overflow heartbeat handler (Remote mode).
Increments its static counter; at a window boundary it reloads `TCNT0` with
the fractional preload and evaluates the link: a dead link enters replay;
with `command` equal to `STOP` or `SEND_LCD` the alive flag is kept true;
otherwise it is cleared for the next window. -/
def Check_Connection (s : Sys) : Sys :=
  if (s.ccCounter + 1) % 65536 ≥ s.ovfCounts then
    if s.car_connected = false then
      { Save_Move { s with tcnt0 := s.tcntG % 256, ccCounter := 0 } with
          motor := MotorAct.bothStop, uartRxEnabled := false,
          timer0Cb := Timer0Cb.backReverse, ovfCounts := 0, tcnt0 := 255,
          command := REVERSE }
    else if s.command = STOP ∨ s.command = SEND_LCD then
      { s with tcnt0 := s.tcntG % 256, ccCounter := 0, car_connected := true }
    else
      { s with tcnt0 := s.tcntG % 256, ccCounter := 0, car_connected := false }
  else
    { s with ccCounter := (s.ccCounter + 1) % 65536 }

/-- `Back_Reverse`: TIMER0-overflow replay handler.  Increments its static
counter and returns while it is below `ovfCounts`; at the boundary it pops
the most recent record — on an empty stack it stops the vehicle and forces
a watchdog reset — and, only when `reversed_mode` is not `STOP`, reloads
`ovfCounts`, the `TCNT0` preload and `OCR2` from the record and passes the
record's 3-bit `mode` field to `MOTOR_SET_Direction`. -/
def Back_Reverse (s : Sys) : Sys :=
  if (s.brCounter + 1) % 65536 < s.ovfCounts then
    { s with brCounter := (s.brCounter + 1) % 65536 }
  else if s.stack.length = 0 then
    { s with brCounter := 0, motor := MotorAct.bothStop, resetReq := true }
  else if s.reversed_mode ≠ STOP then
    { s with brCounter := 0, stack := s.stack.tail,
             ovfCounts := s.stack.headI.ovfs,
             tcnt0 := s.stack.headI.tcnt % 256,
             ocr2 := (51 * s.stack.headI.gear) % 256,
             motor := MOTOR_SET_Direction s.stack.headI.mode }
  else
    { s with brCounter := 0, stack := s.stack.tail }

/-- The first statement block of `Obstacle_Detection`: the front-sensor
rule.  Travelling forward (Remote `FORWARD`, or replay entered with
`reversed_mode = FORWARD`) towards an obstacle closer than 10 cm stops the
motors, disables TIMER0 and sets `front_blocked`; a blocked front that has
recovered to at least 10 cm re-applies full forward drive, re-enables
TIMER0 and clears the flag. -/
def Obstacle_Front (fd : Nat) (s : Sys) : Sys :=
  if ((s.command = FORWARD) ∨
      (s.command = REVERSE ∧ s.reversed_mode = FORWARD)) ∧ fd < 10 then
    if s.front_blocked = false then
      { s with motor := MotorAct.bothStop, timer0On := false,
               front_blocked := true }
    else s
  else if s.front_blocked = true ∧ 10 ≤ fd then
    { s with motor := MotorAct.bothForward, timer0On := true,
             front_blocked := false }
  else s

/-- The second statement block of `Obstacle_Detection`: the back-sensor
rule, symmetric to `Obstacle_Front` with full backward drive on
recovery. -/
def Obstacle_Back (bd : Nat) (s : Sys) : Sys :=
  if ((s.command = BACKWARD) ∨
      (s.command = REVERSE ∧ s.reversed_mode = BACKWARD)) ∧ bd < 10 then
    if s.back_blocked = false then
      { s with motor := MotorAct.bothStop, timer0On := false,
               back_blocked := true }
    else s
  else if s.back_blocked = true ∧ 10 ≤ bd then
    { s with motor := MotorAct.bothBackward, timer0On := true,
             back_blocked := false }
  else s

/-- `Obstacle_Detection`: one main-loop poll with the two measured
distances; the front rule runs first, then the back rule, exactly in the
order of the C source. -/
def Obstacle_Detection (fd bd : Nat) (s : Sys) : Sys :=
  Obstacle_Back bd (Obstacle_Front fd s)

/-- The TIMER0 overflow ISR (`__vector_11`): call the bound callback, then
increment `g_TIMER0_Overflow` (software time tracking is enabled and the
timer runs in normal mode). -/
def timer0_ISR (s : Sys) : Sys :=
  match s.timer0Cb with
  | Timer0Cb.checkConnection =>
      { Check_Connection s with
          g_ovf := ((Check_Connection s).g_ovf + 1) % 65536 }
  | Timer0Cb.backReverse =>
      { Back_Reverse s with
          g_ovf := ((Back_Reverse s).g_ovf + 1) % 65536 }

/-- One Timebase tick: if TIMER0's clock source is enabled, `TCNT0`
advances; the increment past 255 wraps to 0 and fires the overflow ISR. -/
def tick (s : Sys) : Sys :=
  if s.timer0On = false then s
  else if s.tcnt0 = 255 then timer0_ISR { s with tcnt0 := 0 }
  else { s with tcnt0 := s.tcnt0 + 1 }

/-- The external events the controller reacts to: a UART byte arriving, a
variable-length LCD message completing, one Timebase tick, one
obstacle-detection poll with measured front/back distances. -/
inductive Ev where
  | rx (b : Nat)
  | msgDone
  | tick
  | poll (fd bd : Nat)
deriving DecidableEq

/-- One event step.  After `WDT_RESET_MCU()` has been requested the
controller is re-initialising and takes no further steps. -/
def step (s : Sys) (e : Ev) : Sys :=
  if s.resetReq = true then s
  else
    match e with
    | Ev.rx b =>
        if s.uartRxEnabled = true then
          match s.uartCb with
          | UartCb.getCmd => UART_Get_Cmd b s
          | UartCb.getLcdMsg => s
        else s
    | Ev.msgDone =>
        if s.uartRxEnabled = true then
          match s.uartCb with
          | UartCb.getCmd => s
          | UartCb.getLcdMsg => UART_Get_LCD_msg s
        else s
    | Ev.tick => tick s
    | Ev.poll fd bd => Obstacle_Detection fd bd s

/-- Run a list of events from a state. -/
def run : Sys → List Ev → Sys
  | s, [] => s
  | s, e :: es => run (step s e) es

/-- `TIMER0_Calc_ISR_Timing_ms` from `TIMER0.c`, for the configuration the
delivery car compiles with (normal mode, `F_CPU = 8000000`, prescaler 256,
so `TIMER0_FREQ_DIVIDER = 65536000`).  The C code computes with `float32`;
at the one argument `APP_Init` passes (5000 ms) every intermediate float is
exactly representable, so exact natural-number arithmetic below yields the
same `(requiredOverflows, initialTCNT0)` pair, namely `(611, 166)`. -/
def TIMER0_Calc_ISR_Timing_ms (ms : Nat) : Nat × Nat :=
  let num := ms * 8000000
  let den := 65536000
  if num % den = 0 then (num / den, 0)
  else (num / den + 1, (den - num % den) * 256 / den)

/-- The controller state right after the C global initialisers and
`APP_Init` have run: gear 1, `command = STOP`, `reversed_mode = STOP`,
empty stack, TIMER0 reset and running with `Check_Connection` bound as the
overflow callback and the 5000 ms heartbeat constants installed, UART
receive bound to `UART_Get_Cmd`, motors stopped. -/
def APP_Init : Sys :=
  { gear := MIN_GEAR, command := STOP, reversed_mode := STOP, stack := [],
    tcnt0 := 0, g_ovf := 0,
    ovfCounts := (TIMER0_Calc_ISR_Timing_ms 5000).1,
    tcntG := (TIMER0_Calc_ISR_Timing_ms 5000).2,
    ccCounter := 0, brCounter := 0, car_connected := true,
    uartRxEnabled := true, uartCb := UartCb.getCmd,
    timer0Cb := Timer0Cb.checkConnection, timer0On := true,
    front_blocked := false, back_blocked := false,
    ocr2 := (51 * MIN_GEAR) % 256, buzzer := false,
    motor := MotorAct.bothStop, resetReq := false }

/-! ### Reduction equations for `UART_Get_Cmd`, one per command byte -/

/-- Dispatch of the `FORWARD` byte. -/
lemma uart_forward (s : Sys) :
    UART_Get_Cmd FORWARD s =
      { Save_Move { s with command := FORWARD, car_connected := true,
                           motor := MotorAct.bothForward } with
          reversed_mode := BACKWARD } := rfl

/-- Dispatch of the `BACKWARD` byte. -/
lemma uart_backward (s : Sys) :
    UART_Get_Cmd BACKWARD s =
      { Save_Move { s with command := BACKWARD, car_connected := true,
                           motor := MotorAct.bothBackward } with
          reversed_mode := FORWARD } := rfl

/-- Dispatch of the `STOP` byte. -/
lemma uart_stop (s : Sys) :
    UART_Get_Cmd STOP s =
      { Save_Move { s with command := STOP, car_connected := true,
                           motor := MotorAct.bothStop } with
          reversed_mode := STOP } := rfl

/-- Dispatch of the `STEER_RIGHT` byte. -/
lemma uart_steer_right (s : Sys) :
    UART_Get_Cmd STEER_RIGHT s =
      { Save_Move { s with command := STEER_RIGHT, car_connected := true,
                           motor := MotorAct.turnRight } with
          reversed_mode := STEER_LEFT } := rfl

/-- Dispatch of the `STEER_LEFT` byte. -/
lemma uart_steer_left (s : Sys) :
    UART_Get_Cmd STEER_LEFT s =
      { Save_Move { s with command := STEER_LEFT, car_connected := true,
                           motor := MotorAct.turnLeft } with
          reversed_mode := STEER_RIGHT } := rfl

/-- Dispatch of the `GEARUP` byte. -/
lemma uart_gearup (s : Sys) :
    UART_Get_Cmd GEARUP s =
      if s.gear < MAX_GEAR then
        Save_Move { s with command := GEARUP, car_connected := true,
                           gear := s.gear + 1,
                           ocr2 := (51 * (s.gear + 1)) % 256 }
      else { s with command := GEARUP, car_connected := true } := rfl

/-- Dispatch of the `GEARDOWN` byte. -/
lemma uart_geardown (s : Sys) :
    UART_Get_Cmd GEARDOWN s =
      if s.gear > MIN_GEAR then
        Save_Move { s with command := GEARDOWN, car_connected := true,
                           gear := s.gear - 1,
                           ocr2 := (51 * (s.gear - 1)) % 256 }
      else { s with command := GEARDOWN, car_connected := true } := rfl

/-- Dispatch of the `CLR_SCREEN` byte. -/
lemma uart_clr_screen (s : Sys) :
    UART_Get_Cmd CLR_SCREEN s =
      { s with command := CLR_SCREEN, car_connected := true } := rfl

/-- Dispatch of the `SEND_LCD` byte. -/
lemma uart_send_lcd (s : Sys) :
    UART_Get_Cmd SEND_LCD s =
      { s with command := SEND_LCD, car_connected := true,
               uartCb := UartCb.getLcdMsg } := rfl

/-- Dispatch of the `REVERSE` byte. -/
lemma uart_reverse_cmd (s : Sys) :
    UART_Get_Cmd REVERSE s =
      { Save_Move { s with command := REVERSE, car_connected := true } with
          motor := MotorAct.bothStop, uartRxEnabled := false,
          timer0Cb := Timer0Cb.backReverse, ovfCounts := 0,
          tcnt0 := 255 } := rfl

/-- Dispatch of the `BUZZER_ON` byte. -/
lemma uart_buzzer_on (s : Sys) :
    UART_Get_Cmd BUZZER_ON s =
      { s with command := BUZZER_ON, car_connected := true,
               buzzer := true } := rfl

/-- Dispatch of the `BUZZER_OFF` byte. -/
lemma uart_buzzer_off (s : Sys) :
    UART_Get_Cmd BUZZER_OFF s =
      { s with command := BUZZER_OFF, car_connected := true,
               buzzer := false } := rfl

/-- Dispatch of a byte outside the recognised command set: the handler
still stores the byte in `command` and re-arms the alive flag, and does
nothing else. -/
lemma uart_unknown (b : Nat) (s : Sys)
    (h1 : b ≠ FORWARD) (h2 : b ≠ BACKWARD) (h3 : b ≠ STOP)
    (h4 : b ≠ STEER_RIGHT) (h5 : b ≠ STEER_LEFT) (h6 : b ≠ GEARUP)
    (h7 : b ≠ GEARDOWN) (h8 : b ≠ CLR_SCREEN) (h9 : b ≠ SEND_LCD)
    (h10 : b ≠ REVERSE) (h11 : b ≠ BUZZER_ON) (h12 : b ≠ BUZZER_OFF) :
    UART_Get_Cmd b s = { s with command := b, car_connected := true } := by
  unfold UART_Get_Cmd
  rw [if_neg h1, if_neg h2, if_neg h3, if_neg h4, if_neg h5, if_neg h6,
      if_neg h7, if_neg h8, if_neg h9, if_neg h10, if_neg h11, if_neg h12]

/-! ### Helper lemmas: how each operation can change the stack and the
remembered inverse mode -/

/-- `Save_Move` either leaves the stack unchanged or pushes one record of
the superseded motion, with the bit-field truncations applied. -/
lemma saveMove_stack_cases (s : Sys) :
    (Save_Move s).stack = s.stack ∨
    (s.reversed_mode ≠ STOP ∧ s.stack.length < MAX_MOVES ∧
      (Save_Move s).stack =
        reverse.mk (s.reversed_mode % 8) (s.gear % 8) (s.g_ovf % 65536)
          (s.tcnt0 % 256) :: s.stack) := by
  unfold Save_Move
  split_ifs with h
  · exact Or.inr ⟨h.1, h.2, rfl⟩
  · exact Or.inl rfl

/-- `Save_Move` does not change the remembered inverse mode. -/
lemma saveMove_rm (s : Sys) :
    (Save_Move s).reversed_mode = s.reversed_mode := by
  unfold Save_Move
  split_ifs <;> rfl

/-- `UART_Get_Cmd` either leaves the stack unchanged or pushes exactly one
record whose `mode` field is the low three bits of the remembered inverse
`reversed_mode` (possible only when that inverse is not `STOP` and the
stack is not full). -/
lemma uart_stack_cases (b : Nat) (s : Sys) :
    (UART_Get_Cmd b s).stack = s.stack ∨
    (s.reversed_mode ≠ STOP ∧ s.stack.length < MAX_MOVES ∧ ∃ g,
      (UART_Get_Cmd b s).stack =
        reverse.mk (s.reversed_mode % 8) (g % 8) (s.g_ovf % 65536)
          (s.tcnt0 % 256) :: s.stack) := by
  by_cases h1 : b = FORWARD
  · subst h1; rw [uart_forward]
    rcases saveMove_stack_cases _ with h | ⟨ha, hb, hc⟩
    · exact Or.inl h
    · exact Or.inr ⟨ha, hb, s.gear, hc⟩
  by_cases h2 : b = BACKWARD
  · subst h2; rw [uart_backward]
    rcases saveMove_stack_cases _ with h | ⟨ha, hb, hc⟩
    · exact Or.inl h
    · exact Or.inr ⟨ha, hb, s.gear, hc⟩
  by_cases h3 : b = STOP
  · subst h3; rw [uart_stop]
    rcases saveMove_stack_cases _ with h | ⟨ha, hb, hc⟩
    · exact Or.inl h
    · exact Or.inr ⟨ha, hb, s.gear, hc⟩
  by_cases h4 : b = STEER_RIGHT
  · subst h4; rw [uart_steer_right]
    rcases saveMove_stack_cases _ with h | ⟨ha, hb, hc⟩
    · exact Or.inl h
    · exact Or.inr ⟨ha, hb, s.gear, hc⟩
  by_cases h5 : b = STEER_LEFT
  · subst h5; rw [uart_steer_left]
    rcases saveMove_stack_cases _ with h | ⟨ha, hb, hc⟩
    · exact Or.inl h
    · exact Or.inr ⟨ha, hb, s.gear, hc⟩
  by_cases h6 : b = GEARUP
  · subst h6; rw [uart_gearup]
    by_cases hg : s.gear < MAX_GEAR
    · rw [if_pos hg]
      rcases saveMove_stack_cases _ with h | ⟨ha, hb, hc⟩
      · exact Or.inl h
      · exact Or.inr ⟨ha, hb, s.gear + 1, hc⟩
    · rw [if_neg hg]; exact Or.inl rfl
  by_cases h7 : b = GEARDOWN
  · subst h7; rw [uart_geardown]
    by_cases hg : s.gear > MIN_GEAR
    · rw [if_pos hg]
      rcases saveMove_stack_cases _ with h | ⟨ha, hb, hc⟩
      · exact Or.inl h
      · exact Or.inr ⟨ha, hb, s.gear - 1, hc⟩
    · rw [if_neg hg]; exact Or.inl rfl
  by_cases h8 : b = CLR_SCREEN
  · subst h8; rw [uart_clr_screen]; exact Or.inl rfl
  by_cases h9 : b = SEND_LCD
  · subst h9; rw [uart_send_lcd]; exact Or.inl rfl
  by_cases h10 : b = REVERSE
  · subst h10; rw [uart_reverse_cmd]
    rcases saveMove_stack_cases _ with h | ⟨ha, hb, hc⟩
    · exact Or.inl h
    · exact Or.inr ⟨ha, hb, s.gear, hc⟩
  by_cases h11 : b = BUZZER_ON
  · subst h11; rw [uart_buzzer_on]; exact Or.inl rfl
  by_cases h12 : b = BUZZER_OFF
  · subst h12; rw [uart_buzzer_off]; exact Or.inl rfl
  rw [uart_unknown b s h1 h2 h3 h4 h5 h6 h7 h8 h9 h10 h11 h12]
  exact Or.inl rfl

/-- After `UART_Get_Cmd` the remembered inverse mode is unchanged or one of
the five motion command bytes. -/
lemma uart_rm_cases (b : Nat) (s : Sys) :
    (UART_Get_Cmd b s).reversed_mode = s.reversed_mode ∨
    (UART_Get_Cmd b s).reversed_mode = FORWARD ∨
    (UART_Get_Cmd b s).reversed_mode = BACKWARD ∨
    (UART_Get_Cmd b s).reversed_mode = STOP ∨
    (UART_Get_Cmd b s).reversed_mode = STEER_RIGHT ∨
    (UART_Get_Cmd b s).reversed_mode = STEER_LEFT := by
  by_cases h1 : b = FORWARD
  · subst h1; rw [uart_forward]
    exact Or.inr (Or.inr (Or.inl rfl))
  by_cases h2 : b = BACKWARD
  · subst h2; rw [uart_backward]
    exact Or.inr (Or.inl rfl)
  by_cases h3 : b = STOP
  · subst h3; rw [uart_stop]
    exact Or.inr (Or.inr (Or.inr (Or.inl rfl)))
  by_cases h4 : b = STEER_RIGHT
  · subst h4; rw [uart_steer_right]
    exact Or.inr (Or.inr (Or.inr (Or.inr (Or.inr rfl))))
  by_cases h5 : b = STEER_LEFT
  · subst h5; rw [uart_steer_left]
    exact Or.inr (Or.inr (Or.inr (Or.inr (Or.inl rfl))))
  by_cases h6 : b = GEARUP
  · subst h6; rw [uart_gearup]
    by_cases hg : s.gear < MAX_GEAR
    · rw [if_pos hg]; exact Or.inl (saveMove_rm _)
    · rw [if_neg hg]; exact Or.inl rfl
  by_cases h7 : b = GEARDOWN
  · subst h7; rw [uart_geardown]
    by_cases hg : s.gear > MIN_GEAR
    · rw [if_pos hg]; exact Or.inl (saveMove_rm _)
    · rw [if_neg hg]; exact Or.inl rfl
  by_cases h8 : b = CLR_SCREEN
  · subst h8; rw [uart_clr_screen]; exact Or.inl rfl
  by_cases h9 : b = SEND_LCD
  · subst h9; rw [uart_send_lcd]; exact Or.inl rfl
  by_cases h10 : b = REVERSE
  · subst h10; rw [uart_reverse_cmd]; exact Or.inl (saveMove_rm _)
  by_cases h11 : b = BUZZER_ON
  · subst h11; rw [uart_buzzer_on]; exact Or.inl rfl
  by_cases h12 : b = BUZZER_OFF
  · subst h12; rw [uart_buzzer_off]; exact Or.inl rfl
  rw [uart_unknown b s h1 h2 h3 h4 h5 h6 h7 h8 h9 h10 h11 h12]
  exact Or.inl rfl

/-- `Check_Connection`: same stack-shape case split as `Save_Move` (the
push can only happen in the link-lost branch). -/
lemma checkConnection_stack_cases (s : Sys) :
    (Check_Connection s).stack = s.stack ∨
    (s.reversed_mode ≠ STOP ∧ s.stack.length < MAX_MOVES ∧ ∃ g o t,
      (Check_Connection s).stack =
        reverse.mk (s.reversed_mode % 8) (g % 8) (o % 65536)
          (t % 256) :: s.stack) := by
  unfold Check_Connection
  split_ifs
  · rcases saveMove_stack_cases _ with h | ⟨h1, h2, h3⟩
    · exact Or.inl h
    · exact Or.inr ⟨h1, h2, s.gear, s.g_ovf, s.tcntG % 256, h3⟩
  · exact Or.inl rfl
  · exact Or.inl rfl
  · exact Or.inl rfl

/-- `Check_Connection` does not change the remembered inverse mode. -/
lemma checkConnection_rm (s : Sys) :
    (Check_Connection s).reversed_mode = s.reversed_mode := by
  unfold Check_Connection
  split_ifs
  · exact saveMove_rm _
  · rfl
  · rfl
  · rfl

/-- `Back_Reverse` either leaves the stack unchanged or pops its head. -/
lemma backReverse_stack_cases (s : Sys) :
    (Back_Reverse s).stack = s.stack ∨
    (∃ r rest, s.stack = r :: rest ∧ (Back_Reverse s).stack = rest) := by
  unfold Back_Reverse
  split_ifs with h1 h2 h3
  · exact Or.inl rfl
  · exact Or.inl rfl
  · cases hs : s.stack with
    | nil => exact absurd (by rw [hs]; rfl) h2
    | cons r rest => exact Or.inr ⟨r, rest, rfl, rfl⟩
  · cases hs : s.stack with
    | nil => exact absurd (by rw [hs]; rfl) h2
    | cons r rest => exact Or.inr ⟨r, rest, rfl, rfl⟩

/-- `Back_Reverse` does not change the remembered inverse mode. -/
lemma backReverse_rm (s : Sys) :
    (Back_Reverse s).reversed_mode = s.reversed_mode := by
  unfold Back_Reverse
  split_ifs <;> rfl

/-- An obstacle poll never touches the stack or the remembered inverse
mode. -/
lemma obstacle_stack_rm (fd bd : Nat) (s : Sys) :
    (Obstacle_Detection fd bd s).stack = s.stack ∧
    (Obstacle_Detection fd bd s).reversed_mode = s.reversed_mode := by
  unfold Obstacle_Detection Obstacle_Back Obstacle_Front
  split_ifs <;> exact ⟨rfl, rfl⟩

/-- The overflow ISR changes the stack only the way its bound callback
does. -/
lemma isr_stack_cases (s : Sys) :
    (timer0_ISR s).stack = s.stack ∨
    (s.reversed_mode ≠ STOP ∧ s.stack.length < MAX_MOVES ∧ ∃ g o t,
      (timer0_ISR s).stack =
        reverse.mk (s.reversed_mode % 8) (g % 8) (o % 65536)
          (t % 256) :: s.stack) ∨
    (∃ r rest, s.stack = r :: rest ∧ (timer0_ISR s).stack = rest) := by
  cases hcb : s.timer0Cb with
  | checkConnection =>
      rcases checkConnection_stack_cases s with h | ⟨h1, h2, g, o, t, h3⟩
      · exact Or.inl (by simp [timer0_ISR, hcb, h])
      · exact Or.inr (Or.inl ⟨h1, h2, g, o, t, by simp [timer0_ISR, hcb, h3]⟩)
  | backReverse =>
      rcases backReverse_stack_cases s with h | ⟨r, rest, ha, hb⟩
      · exact Or.inl (by simp [timer0_ISR, hcb, h])
      · exact Or.inr (Or.inr ⟨r, rest, ha, by simp [timer0_ISR, hcb, hb]⟩)

/-- The overflow ISR does not change the remembered inverse mode. -/
lemma isr_rm (s : Sys) :
    (timer0_ISR s).reversed_mode = s.reversed_mode := by
  cases hcb : s.timer0Cb <;>
    simp [timer0_ISR, hcb, checkConnection_rm, backReverse_rm]

/-- One event step either leaves the stack unchanged, pushes one record of
the (non-`STOP`) remembered inverse with the bit-field truncations, or
pops the head. -/
lemma step_stack_cases (s : Sys) (e : Ev) :
    (step s e).stack = s.stack ∨
    (s.reversed_mode ≠ STOP ∧ s.stack.length < MAX_MOVES ∧ ∃ g o t,
      (step s e).stack =
        reverse.mk (s.reversed_mode % 8) (g % 8) (o % 65536)
          (t % 256) :: s.stack) ∨
    (∃ r rest, s.stack = r :: rest ∧ (step s e).stack = rest) := by
  cases e with
  | rx b =>
      simp only [step]
      split_ifs
      · exact Or.inl rfl
      · cases huc : s.uartCb with
        | getCmd =>
            rcases uart_stack_cases b s with h | ⟨h1, h2, g, h3⟩
            · exact Or.inl h
            · exact Or.inr (Or.inl ⟨h1, h2, g, s.g_ovf, s.tcnt0, h3⟩)
        | getLcdMsg => exact Or.inl rfl
      · exact Or.inl rfl
  | msgDone =>
      simp only [step]
      split_ifs
      · exact Or.inl rfl
      · cases huc : s.uartCb
        · exact Or.inl rfl
        · exact Or.inl rfl
      · exact Or.inl rfl
  | tick =>
      simp only [step, tick]
      split_ifs
      · exact Or.inl rfl
      · exact Or.inl rfl
      · rcases isr_stack_cases { s with tcnt0 := 0 } with
          h | ⟨h1, h2, g, o, t, h3⟩ | ⟨r, rest, hx, hy⟩
        · exact Or.inl h
        · exact Or.inr (Or.inl ⟨h1, h2, g, o, t, h3⟩)
        · exact Or.inr (Or.inr ⟨r, rest, hx, hy⟩)
      · exact Or.inl rfl
  | poll fd bd =>
      simp only [step]
      split_ifs
      · exact Or.inl rfl
      · exact Or.inl (obstacle_stack_rm fd bd s).1

/-- One event step leaves the remembered inverse mode unchanged or sets it
to one of the five motion command bytes. -/
lemma step_rm_cases (s : Sys) (e : Ev) :
    (step s e).reversed_mode = s.reversed_mode ∨
    (step s e).reversed_mode = FORWARD ∨
    (step s e).reversed_mode = BACKWARD ∨
    (step s e).reversed_mode = STOP ∨
    (step s e).reversed_mode = STEER_RIGHT ∨
    (step s e).reversed_mode = STEER_LEFT := by
  cases e with
  | rx b =>
      simp only [step]
      split_ifs
      · exact Or.inl rfl
      · cases huc : s.uartCb with
        | getCmd => exact uart_rm_cases b s
        | getLcdMsg => exact Or.inl rfl
      · exact Or.inl rfl
  | msgDone =>
      simp only [step]
      split_ifs
      · exact Or.inl rfl
      · cases huc : s.uartCb
        · exact Or.inl rfl
        · exact Or.inl rfl
      · exact Or.inl rfl
  | tick =>
      simp only [step, tick]
      split_ifs
      · exact Or.inl rfl
      · exact Or.inl rfl
      · exact Or.inl (isr_rm { s with tcnt0 := 0 })
      · exact Or.inl rfl
  | poll fd bd =>
      simp only [step]
      split_ifs
      · exact Or.inl rfl
      · exact Or.inl (obstacle_stack_rm fd bd s).2

/-! ### Reachability invariants -/

/-- The remembered inverse mode is always one of the five motion command
bytes (it is initialised to `STOP` and only ever assigned one of the
five). -/
def RmOK (s : Sys) : Prop :=
  s.reversed_mode = FORWARD ∨ s.reversed_mode = BACKWARD ∨
  s.reversed_mode = STOP ∨ s.reversed_mode = STEER_RIGHT ∨
  s.reversed_mode = STEER_LEFT

/-- Every stored record's 3-bit mode field differs from the low three bits
of `STOP`. -/
def StackOK (s : Sys) : Prop := ∀ r ∈ s.stack, r.mode ≠ STOP % 8

/-- The combined reachability invariant used below. -/
def Inv (s : Sys) : Prop :=
  RmOK s ∧ StackOK s ∧ s.stack.length ≤ MAX_MOVES

lemma step_preserves_RmOK (s : Sys) (e : Ev) (h : RmOK s) :
    RmOK (step s e) := by
  rcases step_rm_cases s e with h0 | h0 | h0 | h0 | h0 | h0
  · unfold RmOK at h ⊢
    rw [h0]
    exact h
  · exact Or.inl h0
  · exact Or.inr (Or.inl h0)
  · exact Or.inr (Or.inr (Or.inl h0))
  · exact Or.inr (Or.inr (Or.inr (Or.inl h0)))
  · exact Or.inr (Or.inr (Or.inr (Or.inr h0)))

lemma rm_push_mode_ok (s : Sys) (h : RmOK s) (hne : s.reversed_mode ≠ STOP) :
    s.reversed_mode % 8 ≠ STOP % 8 := by
  rcases h with h | h | h | h | h
  · rw [h]; decide
  · rw [h]; decide
  · exact absurd h hne
  · rw [h]; decide
  · rw [h]; decide

lemma step_preserves_StackOK (s : Sys) (e : Ev) (hrm : RmOK s)
    (h : StackOK s) : StackOK (step s e) := by
  rcases step_stack_cases s e with h0 | ⟨h1, h2, g, o, t, h3⟩ | ⟨r, rest, hx, hy⟩
  · intro x hmem
    rw [h0] at hmem
    exact h x hmem
  · intro x hmem
    rw [h3] at hmem
    rcases List.mem_cons.mp hmem with hcase | hcase
    · subst hcase
      exact rm_push_mode_ok s hrm h1
    · exact h x hcase
  · intro x hmem
    rw [hy] at hmem
    refine h x ?_
    rw [hx]
    exact List.mem_cons_of_mem r hmem

lemma step_stack_length (s : Sys) (e : Ev)
    (h : s.stack.length ≤ MAX_MOVES) :
    (step s e).stack.length ≤ MAX_MOVES := by
  rcases step_stack_cases s e with h0 | ⟨h1, h2, g, o, t, h3⟩ | ⟨r, rest, hx, hy⟩
  · rw [h0]; exact h
  · rw [h3]
    simpa using h2
  · rw [hy]
    rw [hx] at h
    simp only [List.length_cons] at h
    omega

lemma step_preserves_Inv (s : Sys) (e : Ev) (h : Inv s) : Inv (step s e) :=
  ⟨step_preserves_RmOK s e h.1, step_preserves_StackOK s e h.1 h.2.1,
   step_stack_length s e h.2.2⟩

lemma run_preserves_Inv (evs : List Ev) (s : Sys) (h : Inv s) :
    Inv (run s evs) := by
  induction evs generalizing s with
  | nil => exact h
  | cons e es ih => exact ih (step s e) (step_preserves_Inv s e h)

lemma Inv_APP_Init : Inv APP_Init := by
  refine ⟨Or.inr (Or.inr (Or.inl rfl)), ?_, ?_⟩
  · intro r hr
    simp [APP_Init] at hr
  · simp [APP_Init, MAX_MOVES]

/-! ### Claims C5 and C9 -/

/-- C5 — Stack bound: along every event sequence from boot the stack size
never exceeds `MAX_MOVES = 300`; and a `Save_Move` push attempted at size
300 is silently discarded, leaving the stored records (and hence the size)
unchanged. -/
theorem C5_stack_bound :
    (∀ evs, (run APP_Init evs).stack.length ≤ MAX_MOVES) ∧
    (∀ s : Sys, s.stack.length = MAX_MOVES →
      (Save_Move s).stack = s.stack) := by
  constructor
  · intro evs
    exact (run_preserves_Inv evs APP_Init Inv_APP_Init).2.2
  · intro s h
    unfold Save_Move
    split_ifs with hc
    · exact absurd hc.2 (by rw [h]; exact lt_irrefl _)
    · rfl

/-- Witness for C5 at concrete inputs: the empty run, and a full stack of
300 records left untouched by a further push. -/
theorem C5_stack_bound_witness :
    ((run APP_Init []).stack.length ≤ MAX_MOVES) ∧
    ((Save_Move { APP_Init with
        stack := List.replicate 300 (reverse.mk 1 1 0 0) }).stack =
      List.replicate 300 (reverse.mk 1 1 0 0)) :=
  ⟨C5_stack_bound.1 [],
   C5_stack_bound.2
     { APP_Init with stack := List.replicate 300 (reverse.mk 1 1 0 0) }
     (show (List.replicate 300 (reverse.mk 1 1 0 0)).length = MAX_MOVES by
       rw [List.length_replicate]; rfl)⟩

/-- C9 — `Save_Move` stores nothing when the remembered inverse motion is
`STOP` (in particular at the very first motion command after boot, which
supersedes the initial `STOP`), and consequently every record ever present
in the stack has a mode field different from `STOP`'s 3-bit encoding, so
stopped intervals are never recorded. -/
theorem C9_no_stop_records :
    (∀ s : Sys, s.reversed_mode = STOP → (Save_Move s).stack = s.stack) ∧
    (∀ evs, ∀ r ∈ (run APP_Init evs).stack, r.mode ≠ STOP % 8) := by
  constructor
  · intro s h
    unfold Save_Move
    split_ifs with hc
    · exact absurd h hc.1
    · rfl
  · intro evs
    exact (run_preserves_Inv evs APP_Init Inv_APP_Init).2.1

/-- Witness for C9: at boot (`reversed_mode = STOP`) a push is a no-op;
and the record produced by the concrete run `FORWARD`, one tick, `STOP`
has mode field 2 ≠ `STOP % 8`. -/
theorem C9_no_stop_records_witness :
    ((Save_Move APP_Init).stack = APP_Init.stack) ∧
    (reverse.mk 2 1 0 1).mode ≠ STOP % 8 :=
  ⟨C9_no_stop_records.1 APP_Init rfl,
   C9_no_stop_records.2 [Ev.rx FORWARD, Ev.tick, Ev.rx STOP]
     (reverse.mk 2 1 0 1) (by decide)⟩

/-! ### Pointwise behaviour of `Back_Reverse` -/

/-- A replay overflow below the per-record target only counts. -/
lemma backReverse_count (s : Sys)
    (hb : (s.brCounter + 1) % 65536 < s.ovfCounts) :
    Back_Reverse s = { s with brCounter := (s.brCounter + 1) % 65536 } := by
  unfold Back_Reverse
  rw [if_pos hb]

/-- A replay boundary with an empty stack stops the vehicle and requests
the watchdog reset. -/
lemma backReverse_fire_empty (s : Sys)
    (hb : s.ovfCounts ≤ (s.brCounter + 1) % 65536) (hs : s.stack = []) :
    Back_Reverse s =
      { s with brCounter := 0, motor := MotorAct.bothStop,
               resetReq := true } := by
  unfold Back_Reverse
  rw [if_neg (Nat.not_lt.mpr hb), if_pos (by rw [hs]; rfl)]

/-- A replay boundary with a non-empty stack and a non-`STOP` remembered
inverse pops the head record and loads it. -/
lemma backReverse_fire_pop (s : Sys) (r : reverse) (rest : List reverse)
    (hb : s.ovfCounts ≤ (s.brCounter + 1) % 65536)
    (hs : s.stack = r :: rest) (hrm : s.reversed_mode ≠ STOP) :
    Back_Reverse s =
      { s with brCounter := 0, stack := rest, ovfCounts := r.ovfs,
               tcnt0 := r.tcnt % 256, ocr2 := (51 * r.gear) % 256,
               motor := MOTOR_SET_Direction r.mode } := by
  unfold Back_Reverse
  rw [if_neg (Nat.not_lt.mpr hb), if_neg (by rw [hs]; simp), if_pos hrm, hs]
  rfl

/-- A replay boundary with a non-empty stack and a `STOP` remembered
inverse pops the head record and does nothing else: no motor command, no
gear reload, no `ovfCounts`/`TCNT0` load. -/
lemma backReverse_fire_pop_stop (s : Sys) (r : reverse) (rest : List reverse)
    (hb : s.ovfCounts ≤ (s.brCounter + 1) % 65536)
    (hs : s.stack = r :: rest) (hrm : s.reversed_mode = STOP) :
    Back_Reverse s = { s with brCounter := 0, stack := s.stack.tail } := by
  unfold Back_Reverse
  rw [if_neg (Nat.not_lt.mpr hb), if_neg (by rw [hs]; simp),
      if_neg (not_not_intro hrm)]

/-! ### Claim C3 -/

/-- C3 (amended) — ReplayEngine step contract: at a replay overflow
boundary (static counter having reached `ovfCounts`), an empty stack
stops the vehicle and forces the watchdog reset; a non-empty stack is
popped, and — only when the remembered inverse motion at replay entry is
not `STOP` — the popped record's gear is written to the speed compare
register and its stored 3-bit mode field is passed verbatim to
`MOTOR_SET_Direction`; when the remembered inverse is `STOP`, the record
is popped with no gear or actuator command at all. -/
theorem C3_replay_step_contract :
    (∀ s : Sys, (s.brCounter + 1) % 65536 ≥ s.ovfCounts → s.stack = [] →
      Back_Reverse s =
        { s with brCounter := 0, motor := MotorAct.bothStop,
                 resetReq := true }) ∧
    (∀ (s : Sys) (r : reverse) (rest : List reverse),
      (s.brCounter + 1) % 65536 ≥ s.ovfCounts → s.stack = r :: rest →
      s.reversed_mode ≠ STOP →
      Back_Reverse s =
        { s with brCounter := 0, stack := rest, ovfCounts := r.ovfs,
                 tcnt0 := r.tcnt % 256, ocr2 := (51 * r.gear) % 256,
                 motor := MOTOR_SET_Direction r.mode }) ∧
    (∀ (s : Sys) (r : reverse) (rest : List reverse),
      (s.brCounter + 1) % 65536 ≥ s.ovfCounts → s.stack = r :: rest →
      s.reversed_mode = STOP →
      Back_Reverse s = { s with brCounter := 0, stack := rest }) :=
  ⟨fun s hb hs => backReverse_fire_empty s hb hs,
   fun s r rest hb hs hrm => backReverse_fire_pop s r rest hb hs hrm,
   fun s r rest hb hs hrm => by
     rw [backReverse_fire_pop_stop s r rest hb hs hrm, hs]
     rfl⟩

/-- Witness for C3 at concrete states: an empty stack fires the reset; a
one-record stack with a non-`STOP` inverse is popped and loaded; a
one-record stack with a `STOP` inverse is popped silently. -/
theorem C3_replay_step_contract_witness :
    (Back_Reverse { APP_Init with ovfCounts := 0 } =
      { APP_Init with ovfCounts := 0, brCounter := 0,
                      motor := MotorAct.bothStop, resetReq := true }) ∧
    (Back_Reverse { APP_Init with ovfCounts := 0,
                                  stack := [reverse.mk 1 2 3 4],
                                  reversed_mode := BACKWARD } =
      { APP_Init with reversed_mode := BACKWARD, brCounter := 0,
                      stack := [], ovfCounts := 3, tcnt0 := 4, ocr2 := 102,
                      motor := MotorAct.bothBackward }) ∧
    (Back_Reverse { APP_Init with ovfCounts := 0,
                                  stack := [reverse.mk 1 2 3 4] } =
      { APP_Init with ovfCounts := 0, brCounter := 0, stack := [] }) :=
  ⟨C3_replay_step_contract.1 _ (by decide) rfl,
   C3_replay_step_contract.2.1 _ (reverse.mk 1 2 3 4) [] (by decide) rfl
     (by decide),
   C3_replay_step_contract.2.2 _ (reverse.mk 1 2 3 4) [] (by decide) rfl rfl⟩

/-- C3 counterexample — the claim as stated (pop always reapplies the gear
and drives the stored mode) fails when replay was entered with the
remembered inverse equal to `STOP`: in the concrete run below the record
`⟨1,1,0,1⟩` is popped, but the motors stay stopped (the claim demands
`MOTOR_SET_Direction 1 = bothBackward`) and the `TCNT0` preload `1` is not
loaded. -/
theorem C3_counterexample :
    (run APP_Init [Ev.rx FORWARD, Ev.tick, Ev.rx BACKWARD, Ev.tick,
        Ev.rx STOP, Ev.rx REVERSE, Ev.tick]).stack = [reverse.mk 2 1 0 1] ∧
    (run APP_Init [Ev.rx FORWARD, Ev.tick, Ev.rx BACKWARD, Ev.tick,
        Ev.rx STOP, Ev.rx REVERSE]).stack =
      [reverse.mk 1 1 0 1, reverse.mk 2 1 0 1] ∧
    (run APP_Init [Ev.rx FORWARD, Ev.tick, Ev.rx BACKWARD, Ev.tick,
        Ev.rx STOP, Ev.rx REVERSE, Ev.tick]).motor = MotorAct.bothStop ∧
    MOTOR_SET_Direction 1 = MotorAct.bothBackward ∧
    MotorAct.bothStop ≠ MotorAct.bothBackward ∧
    (run APP_Init [Ev.rx FORWARD, Ev.tick, Ev.rx BACKWARD, Ev.tick,
        Ev.rx STOP, Ev.rx REVERSE, Ev.tick]).tcnt0 = 0 ∧
    (reverse.mk 1 1 0 1).tcnt = 1 ∧ (0 : Nat) ≠ 1 := by
  decide

/-! ### Callback persistence (for claim C4) -/

/-- `Save_Move` does not touch the TIMER0 overflow callback. -/
lemma saveMove_timer0Cb (s : Sys) :
    (Save_Move s).timer0Cb = s.timer0Cb := by
  unfold Save_Move
  split_ifs <;> rfl

/-- `UART_Get_Cmd` either leaves the TIMER0 overflow callback unchanged or
rebinds it to `Back_Reverse` (the `REVERSE` command). -/
lemma uart_timer0Cb (b : Nat) (s : Sys) :
    (UART_Get_Cmd b s).timer0Cb = s.timer0Cb ∨
    (UART_Get_Cmd b s).timer0Cb = Timer0Cb.backReverse := by
  by_cases h1 : b = FORWARD
  · subst h1; rw [uart_forward]; exact Or.inl (saveMove_timer0Cb _)
  by_cases h2 : b = BACKWARD
  · subst h2; rw [uart_backward]; exact Or.inl (saveMove_timer0Cb _)
  by_cases h3 : b = STOP
  · subst h3; rw [uart_stop]; exact Or.inl (saveMove_timer0Cb _)
  by_cases h4 : b = STEER_RIGHT
  · subst h4; rw [uart_steer_right]; exact Or.inl (saveMove_timer0Cb _)
  by_cases h5 : b = STEER_LEFT
  · subst h5; rw [uart_steer_left]; exact Or.inl (saveMove_timer0Cb _)
  by_cases h6 : b = GEARUP
  · subst h6; rw [uart_gearup]
    by_cases hg : s.gear < MAX_GEAR
    · rw [if_pos hg]; exact Or.inl (saveMove_timer0Cb _)
    · rw [if_neg hg]; exact Or.inl rfl
  by_cases h7 : b = GEARDOWN
  · subst h7; rw [uart_geardown]
    by_cases hg : s.gear > MIN_GEAR
    · rw [if_pos hg]; exact Or.inl (saveMove_timer0Cb _)
    · rw [if_neg hg]; exact Or.inl rfl
  by_cases h8 : b = CLR_SCREEN
  · subst h8; rw [uart_clr_screen]; exact Or.inl rfl
  by_cases h9 : b = SEND_LCD
  · subst h9; rw [uart_send_lcd]; exact Or.inl rfl
  by_cases h10 : b = REVERSE
  · subst h10; rw [uart_reverse_cmd]; exact Or.inr rfl
  by_cases h11 : b = BUZZER_ON
  · subst h11; rw [uart_buzzer_on]; exact Or.inl rfl
  by_cases h12 : b = BUZZER_OFF
  · subst h12; rw [uart_buzzer_off]; exact Or.inl rfl
  rw [uart_unknown b s h1 h2 h3 h4 h5 h6 h7 h8 h9 h10 h11 h12]
  exact Or.inl rfl

/-- `Back_Reverse` never touches the TIMER0 overflow callback. -/
lemma backReverse_timer0Cb (s : Sys) :
    (Back_Reverse s).timer0Cb = s.timer0Cb := by
  unfold Back_Reverse
  split_ifs <;> rfl

/-- An obstacle poll never touches the TIMER0 overflow callback. -/
lemma obstacle_timer0Cb (fd bd : Nat) (s : Sys) :
    (Obstacle_Detection fd bd s).timer0Cb = s.timer0Cb := by
  unfold Obstacle_Detection Obstacle_Back Obstacle_Front
  split_ifs <;> rfl

/-! ### Claim C4 -/

/-- C4 (amended) — heartbeat boundaries: at a window boundary in Remote
mode, if a qualifying byte arrived and the last command was `STOP` or
`SEND_LCD` the alive flag is KEPT TRUE for the next window (the spec's
claim that it is cleared is what the counterexample refutes); for every
other last command the flag is cleared; if no byte arrived the transition
to replay happens (callback rebound, UART disabled, vehicle stopped); and
once the callback is `Back_Reverse` no event ever rebinds it back, so the
transition is entered at most once per boot. -/
theorem C4_heartbeat :
    (∀ s : Sys, (s.ccCounter + 1) % 65536 ≥ s.ovfCounts →
      s.car_connected = true → (s.command = STOP ∨ s.command = SEND_LCD) →
      (Check_Connection s).car_connected = true) ∧
    (∀ s : Sys, (s.ccCounter + 1) % 65536 ≥ s.ovfCounts →
      s.car_connected = true → s.command ≠ STOP → s.command ≠ SEND_LCD →
      (Check_Connection s).car_connected = false) ∧
    (∀ s : Sys, (s.ccCounter + 1) % 65536 ≥ s.ovfCounts →
      s.car_connected = false →
      (Check_Connection s).timer0Cb = Timer0Cb.backReverse ∧
      (Check_Connection s).uartRxEnabled = false ∧
      (Check_Connection s).command = REVERSE ∧
      (Check_Connection s).motor = MotorAct.bothStop ∧
      (Check_Connection s).ovfCounts = 0) ∧
    (∀ (s : Sys) (e : Ev), s.timer0Cb = Timer0Cb.backReverse →
      (step s e).timer0Cb = Timer0Cb.backReverse) := by
  refine ⟨?_, ?_, ?_, ?_⟩
  · intro s hb hcc hcmd
    unfold Check_Connection
    rw [if_pos hb, if_neg (by simp [hcc]), if_pos hcmd]
  · intro s hb hcc h3 h4
    unfold Check_Connection
    rw [if_pos hb, if_neg (by simp [hcc]),
        if_neg (by rintro (h | h); exacts [h3 h, h4 h])]
  · intro s hb hcc
    unfold Check_Connection
    rw [if_pos hb, if_pos hcc]
    exact ⟨rfl, rfl, rfl, rfl, rfl⟩
  · intro s e hcb
    cases e with
    | rx b =>
        simp only [step]
        split_ifs
        · exact hcb
        · cases huc : s.uartCb with
          | getCmd =>
              rcases uart_timer0Cb b s with h | h
              · rw [h]; exact hcb
              · exact h
          | getLcdMsg => exact hcb
        · exact hcb
    | msgDone =>
        simp only [step]
        split_ifs
        · exact hcb
        · cases huc : s.uartCb
          · exact hcb
          · exact hcb
        · exact hcb
    | tick =>
        simp only [step, tick]
        split_ifs
        · exact hcb
        · exact hcb
        · simp only [timer0_ISR, hcb]
          rw [backReverse_timer0Cb]
        · exact hcb
    | poll fd bd =>
        simp only [step]
        split_ifs
        · exact hcb
        · rw [obstacle_timer0Cb]
          exact hcb

/-- Witness for C4 at concrete states (window constants 611/166 as
computed by `APP_Init` for 5000 ms): a boundary with `command = STOP`
keeps the flag true; with `command = FORWARD` it clears it; with the flag
already false the replay transition fires; and a tick in replay mode
leaves the callback on `Back_Reverse`. -/
theorem C4_heartbeat_witness :
    (Check_Connection { APP_Init with ccCounter := 700 }).car_connected =
      true ∧
    (Check_Connection { APP_Init with ccCounter := 700,
                                      command := FORWARD }).car_connected =
      false ∧
    (Check_Connection { APP_Init with ccCounter := 700,
                                      car_connected := false }).timer0Cb =
      Timer0Cb.backReverse ∧
    (step { APP_Init with timer0Cb := Timer0Cb.backReverse }
        Ev.tick).timer0Cb = Timer0Cb.backReverse :=
  ⟨C4_heartbeat.1 _ (by decide) rfl (Or.inl rfl),
   C4_heartbeat.2.1 _ (by decide) rfl (by decide) (by decide),
   (C4_heartbeat.2.2.1 _ (by decide) rfl).1,
   C4_heartbeat.2.2.2 _ Ev.tick rfl⟩

/-- C4 counterexample — the claim says that on a boundary where a byte
arrived but the last command was `STOP` (or a non-motion command) the
watchdog sets the alive flag to FALSE for the next window; at the concrete
boundary state below (`command = STOP`, 611th overflow of the 5 s window)
the code keeps it TRUE. -/
theorem C4_counterexample :
    (({ APP_Init with ccCounter := 610 } : Sys).ccCounter + 1) % 65536 ≥
      ({ APP_Init with ccCounter := 610 } : Sys).ovfCounts ∧
    ({ APP_Init with ccCounter := 610 } : Sys).command = STOP ∧
    ({ APP_Init with ccCounter := 610 } : Sys).car_connected = true ∧
    (Check_Connection { APP_Init with ccCounter := 610 }).car_connected =
      true := by
  decide

/-! ### Claim C6 -/

/-- The forward-travel condition of the front rule excludes the
backward-travel condition of the back rule. -/
lemma not_back_cond_of_forward {c r : Nat}
    (h : c = FORWARD ∨ (c = REVERSE ∧ r = FORWARD)) :
    ¬(c = BACKWARD ∨ (c = REVERSE ∧ r = BACKWARD)) := by
  unfold FORWARD REVERSE BACKWARD at *
  rcases h with h | ⟨h1, h2⟩ <;> rintro (hx | ⟨hx1, hx2⟩) <;> omega

/-- The backward-travel condition of the back rule excludes the
forward-travel condition of the front rule. -/
lemma not_forward_cond_of_backward {c r : Nat}
    (h : c = BACKWARD ∨ (c = REVERSE ∧ r = BACKWARD)) :
    ¬(c = FORWARD ∨ (c = REVERSE ∧ r = FORWARD)) := by
  unfold FORWARD REVERSE BACKWARD at *
  rcases h with h | ⟨h1, h2⟩ <;> rintro (hx | ⟨hx1, hx2⟩) <;> omega

/-- C6 (amended) — obstacle time-neutrality, as far as it actually holds:
detecting a fresh front (resp. back) obstacle while the opposite blocked
flag is clear leaves TIMER0 disabled at the end of the poll; while a
single direction stays blocked (distance still below 10 cm) further polls
keep TIMER0 disabled; and a tick with TIMER0 disabled changes nothing, so
such blocked intervals contribute zero ticks.  (The unrestricted claim —
disabled whenever either flag is set — fails when a stale opposite block
clears in the same poll; see the counterexample.) -/
theorem C6_time_neutrality :
    (∀ (s : Sys) (fd bd : Nat),
      ((s.command = FORWARD) ∨
        (s.command = REVERSE ∧ s.reversed_mode = FORWARD)) →
      fd < 10 → s.front_blocked = false → s.back_blocked = false →
      (Obstacle_Detection fd bd s).timer0On = false) ∧
    (∀ (s : Sys) (fd bd : Nat),
      ((s.command = BACKWARD) ∨
        (s.command = REVERSE ∧ s.reversed_mode = BACKWARD)) →
      bd < 10 → s.back_blocked = false → s.front_blocked = false →
      (Obstacle_Detection fd bd s).timer0On = false) ∧
    (∀ (s : Sys) (fd bd : Nat), s.front_blocked = true →
      s.back_blocked = false → s.timer0On = false → fd < 10 →
      (Obstacle_Detection fd bd s).timer0On = false) ∧
    (∀ (s : Sys) (fd bd : Nat), s.back_blocked = true →
      s.front_blocked = false → s.timer0On = false → bd < 10 →
      (Obstacle_Detection fd bd s).timer0On = false) ∧
    (∀ s : Sys, s.timer0On = false → tick s = s) := by
  refine ⟨?_, ?_, ?_, ?_, ?_⟩
  · intro s fd bd hcmd hfd hfb hbb
    unfold Obstacle_Detection
    have h1 : Obstacle_Front fd s =
        { s with motor := MotorAct.bothStop, timer0On := false,
                 front_blocked := true } := by
      unfold Obstacle_Front
      rw [if_pos ⟨hcmd, hfd⟩, if_pos hfb]
    rw [h1]
    unfold Obstacle_Back
    rw [if_neg (by rintro ⟨hx, _⟩; exact not_back_cond_of_forward hcmd hx),
        if_neg (by rintro ⟨hx, _⟩; simp [hbb] at hx)]
  · intro s fd bd hcmd hbd hbb hfb
    unfold Obstacle_Detection
    have h1 : Obstacle_Front fd s = s := by
      unfold Obstacle_Front
      have hnf := not_forward_cond_of_backward hcmd
      rw [if_neg (by rintro ⟨hx, _⟩; exact hnf hx),
          if_neg (by rintro ⟨hx, _⟩; simp [hfb] at hx)]
    rw [h1]
    unfold Obstacle_Back
    rw [if_pos ⟨hcmd, hbd⟩, if_pos hbb]
  · intro s fd bd hfb hbb hoff hfd
    unfold Obstacle_Detection
    have h1 : Obstacle_Front fd s = s := by
      unfold Obstacle_Front
      by_cases hc : ((s.command = FORWARD) ∨
          (s.command = REVERSE ∧ s.reversed_mode = FORWARD)) ∧ fd < 10
      · rw [if_pos hc, if_neg (by simp [hfb])]
      · rw [if_neg hc, if_neg (by rintro ⟨_, hge⟩; omega)]
    rw [h1]
    unfold Obstacle_Back
    by_cases hc2 : ((s.command = BACKWARD) ∨
        (s.command = REVERSE ∧ s.reversed_mode = BACKWARD)) ∧ bd < 10
    · rw [if_pos hc2, if_pos hbb]
    · rw [if_neg hc2, if_neg (by rintro ⟨hx, _⟩; simp [hbb] at hx)]
      exact hoff
  · intro s fd bd hbb hfb hoff hbd
    unfold Obstacle_Detection
    by_cases hc : ((s.command = FORWARD) ∨
        (s.command = REVERSE ∧ s.reversed_mode = FORWARD)) ∧ fd < 10
    · have h1 : Obstacle_Front fd s =
          { s with motor := MotorAct.bothStop, timer0On := false,
                   front_blocked := true } := by
        unfold Obstacle_Front
        rw [if_pos hc, if_pos hfb]
      rw [h1]
      unfold Obstacle_Back
      by_cases hc2 : ((s.command = BACKWARD) ∨
          (s.command = REVERSE ∧ s.reversed_mode = BACKWARD)) ∧ bd < 10
      · rw [if_pos (by exact hc2), if_neg (by simp [hbb])]
      · rw [if_neg (by exact hc2),
            if_neg (by rintro ⟨_, hge⟩; omega)]
    · have h1 : Obstacle_Front fd s = s := by
        unfold Obstacle_Front
        rw [if_neg hc, if_neg (by rintro ⟨hx, _⟩; simp [hfb] at hx)]
      rw [h1]
      unfold Obstacle_Back
      by_cases hc2 : ((s.command = BACKWARD) ∨
          (s.command = REVERSE ∧ s.reversed_mode = BACKWARD)) ∧ bd < 10
      · rw [if_pos hc2, if_neg (by simp [hbb])]
        exact hoff
      · rw [if_neg hc2, if_neg (by rintro ⟨_, hge⟩; omega)]
        exact hoff
  · intro s h
    unfold tick
    rw [if_pos h]

/-- Witness for C6 at concrete states. -/
theorem C6_time_neutrality_witness :
    (Obstacle_Detection 5 20
        { APP_Init with command := FORWARD }).timer0On = false ∧
    (Obstacle_Detection 20 5
        { APP_Init with command := BACKWARD }).timer0On = false ∧
    (Obstacle_Detection 5 20 { APP_Init with front_blocked := true,
                                             timer0On := false }).timer0On =
      false ∧
    (Obstacle_Detection 20 5 { APP_Init with back_blocked := true,
                                             timer0On := false }).timer0On =
      false ∧
    tick { APP_Init with timer0On := false } =
      { APP_Init with timer0On := false } :=
  ⟨C6_time_neutrality.1 _ 5 20 (Or.inl rfl) (by decide) rfl rfl,
   C6_time_neutrality.2.1 _ 20 5 (Or.inl rfl) (by decide) rfl rfl,
   C6_time_neutrality.2.2.1 _ 5 20 rfl rfl rfl (by decide),
   C6_time_neutrality.2.2.2.1 _ 20 5 rfl rfl rfl (by decide),
   C6_time_neutrality.2.2.2.2 _ rfl⟩

/-- C6 counterexample — the claim says TIMER0 counting is disabled
whenever `front_blocked` or `back_blocked` is true.  In the concrete run
below (`BACKWARD`, back obstacle, `FORWARD`, then a poll seeing the front
obstacle and the cleared back), the back recovery — which runs after the
front block in the same poll — re-enables TIMER0, leaving a state with
`front_blocked = true` and the timer running: the next tick advances
`TCNT0`, contributing to the recorded duration. -/
theorem C6_counterexample :
    (run APP_Init [Ev.rx BACKWARD, Ev.poll 20 5, Ev.rx FORWARD,
        Ev.poll 5 20]).front_blocked = true ∧
    (run APP_Init [Ev.rx BACKWARD, Ev.poll 20 5, Ev.rx FORWARD,
        Ev.poll 5 20]).timer0On = true ∧
    (tick (run APP_Init [Ev.rx BACKWARD, Ev.poll 20 5, Ev.rx FORWARD,
        Ev.poll 5 20])).tcnt0 =
      (run APP_Init [Ev.rx BACKWARD, Ev.poll 20 5, Ev.rx FORWARD,
          Ev.poll 5 20]).tcnt0 + 1 := by
  decide

/-! ### Claim C7 -/

/-- C7 (amended) — obstacle resume: when a blocked front (resp. back)
direction's distance recovers to at least 10 cm (opposite direction
quiescent), the guard re-enables TIMER0, clears the blocked flag, and
applies full forward (resp. backward) drive — the hard-coded
`MOTOR_BothForward`/`MOTOR_BothBackward`, which coincides with the
pre-block motion only when that motion was full forward (resp. backward)
drive, not in general (see the counterexample from replay mode). -/
theorem C7_obstacle_resume :
    (∀ (s : Sys) (fd bd : Nat), s.front_blocked = true → 10 ≤ fd →
      s.back_blocked = false → 10 ≤ bd →
      Obstacle_Detection fd bd s =
        { s with motor := MotorAct.bothForward, timer0On := true,
                 front_blocked := false }) ∧
    (∀ (s : Sys) (fd bd : Nat), s.back_blocked = true → 10 ≤ bd →
      s.front_blocked = false → 10 ≤ fd →
      Obstacle_Detection fd bd s =
        { s with motor := MotorAct.bothBackward, timer0On := true,
                 back_blocked := false }) := by
  constructor
  · intro s fd bd hfb hfd hbb hbd
    unfold Obstacle_Detection
    have h1 : Obstacle_Front fd s =
        { s with motor := MotorAct.bothForward, timer0On := true,
                 front_blocked := false } := by
      unfold Obstacle_Front
      rw [if_neg (by rintro ⟨hx, hlt⟩; omega), if_pos ⟨hfb, hfd⟩]
    rw [h1]
    unfold Obstacle_Back
    rw [if_neg (by rintro ⟨hx, hlt⟩; omega),
        if_neg (by rintro ⟨hx, _⟩; simp [hbb] at hx)]
  · intro s fd bd hbb hbd hfb hfd
    unfold Obstacle_Detection
    have h1 : Obstacle_Front fd s = s := by
      unfold Obstacle_Front
      rw [if_neg (by rintro ⟨hx, hlt⟩; omega),
          if_neg (by rintro ⟨hx, _⟩; simp [hfb] at hx)]
    rw [h1]
    unfold Obstacle_Back
    rw [if_neg (by rintro ⟨hx, hlt⟩; omega), if_pos ⟨hbb, hbd⟩]

/-- Witness for C7 at concrete blocked states. -/
theorem C7_obstacle_resume_witness :
    (Obstacle_Detection 20 20 { APP_Init with front_blocked := true,
                                              timer0On := false } =
      { APP_Init with motor := MotorAct.bothForward, timer0On := true,
                      front_blocked := false }) ∧
    (Obstacle_Detection 20 20 { APP_Init with back_blocked := true,
                                              timer0On := false } =
      { APP_Init with motor := MotorAct.bothBackward, timer0On := true,
                      back_blocked := false }) :=
  ⟨C7_obstacle_resume.1 _ 20 20 rfl (by decide) rfl (by decide),
   C7_obstacle_resume.2 _ 20 20 rfl (by decide) rfl (by decide)⟩

/-- C7 counterexample — the claim says recovery re-applies exactly the
motion active immediately before the block, in Replaying mode too.  In the
concrete replay below the in-flight motion before the front block is
`bothBackward` (the popped record's mode 1 drives `MOTOR_BACKWARD`), yet
after recovery the guard drives `bothForward`. -/
theorem C7_counterexample :
    (run APP_Init [Ev.rx BACKWARD, Ev.tick, Ev.rx REVERSE,
        Ev.tick]).motor = MotorAct.bothBackward ∧
    (run APP_Init [Ev.rx BACKWARD, Ev.tick, Ev.rx REVERSE, Ev.tick,
        Ev.poll 5 20]).front_blocked = true ∧
    (run APP_Init [Ev.rx BACKWARD, Ev.tick, Ev.rx REVERSE, Ev.tick,
        Ev.poll 5 20]).motor = MotorAct.bothStop ∧
    (run APP_Init [Ev.rx BACKWARD, Ev.tick, Ev.rx REVERSE, Ev.tick,
        Ev.poll 5 20, Ev.poll 20 20]).motor = MotorAct.bothForward ∧
    MotorAct.bothForward ≠ MotorAct.bothBackward := by
  decide

/-! ### Claim C8 -/

/-- C8 (amended) — an unrecognised command byte causes no motion, gear,
stack, buzzer, mode or callback change and signals no error; but —
contrary to the claim's "no state change at all" — the handler does store
the byte in `command` and does re-arm the alive flag, exactly and only
that. -/
theorem C8_unknown_byte (b : Nat) (s : Sys)
    (h1 : b ≠ FORWARD) (h2 : b ≠ BACKWARD) (h3 : b ≠ STOP)
    (h4 : b ≠ STEER_RIGHT) (h5 : b ≠ STEER_LEFT) (h6 : b ≠ GEARUP)
    (h7 : b ≠ GEARDOWN) (h8 : b ≠ CLR_SCREEN) (h9 : b ≠ SEND_LCD)
    (h10 : b ≠ REVERSE) (h11 : b ≠ BUZZER_ON) (h12 : b ≠ BUZZER_OFF) :
    UART_Get_Cmd b s = { s with command := b, car_connected := true } :=
  uart_unknown b s h1 h2 h3 h4 h5 h6 h7 h8 h9 h10 h11 h12

/-- Witness for C8 at the unrecognised byte 120 and the boot state. -/
theorem C8_unknown_byte_witness :
    UART_Get_Cmd 120 APP_Init =
      { APP_Init with command := 120, car_connected := true } :=
  C8_unknown_byte 120 APP_Init (by decide) (by decide) (by decide)
    (by decide) (by decide) (by decide) (by decide) (by decide) (by decide)
    (by decide) (by decide) (by decide)

/-- C8 counterexample — the claim says an unrecognised byte causes no
state change at all (in particular no change to `command` or to the alive
flag).  Receiving the unrecognised byte 120 at boot changes `command` from
`STOP` to 120, and receiving it with the alive flag cleared re-arms the
flag. -/
theorem C8_counterexample :
    (run APP_Init [Ev.rx 120]).command = 120 ∧
    APP_Init.command = STOP ∧ (120 : Nat) ≠ STOP ∧
    run APP_Init [Ev.rx 120] ≠ APP_Init ∧
    (UART_Get_Cmd 120
        { APP_Init with car_connected := false }).car_connected = true ∧
    (120 : Nat) ≠ FORWARD ∧ (120 : Nat) ≠ BACKWARD ∧
    (120 : Nat) ≠ STEER_RIGHT ∧ (120 : Nat) ≠ STEER_LEFT ∧
    (120 : Nat) ≠ GEARUP ∧ (120 : Nat) ≠ GEARDOWN ∧
    (120 : Nat) ≠ CLR_SCREEN ∧ (120 : Nat) ≠ SEND_LCD ∧
    (120 : Nat) ≠ REVERSE ∧ (120 : Nat) ≠ BUZZER_ON ∧
    (120 : Nat) ≠ BUZZER_OFF := by
  decide

/-! ### Claim C10 -/

/-- When replay runs with the remembered inverse equal to `STOP` and
`ovfCounts = 0`, each `Back_Reverse` call pops exactly one record and
changes nothing else; iterating pops the whole stack. -/
lemma backReverse_stop_iterate (recs : List reverse) :
    ∀ s : Sys, s.reversed_mode = STOP → s.ovfCounts = 0 → s.stack = recs →
      (Back_Reverse^[recs.length] s).stack = [] ∧
      (Back_Reverse^[recs.length] s).reversed_mode = STOP ∧
      (Back_Reverse^[recs.length] s).ovfCounts = 0 ∧
      (Back_Reverse^[recs.length] s).motor = s.motor ∧
      (Back_Reverse^[recs.length] s).ocr2 = s.ocr2 ∧
      (Back_Reverse^[recs.length] s).tcnt0 = s.tcnt0 ∧
      (Back_Reverse^[recs.length] s).resetReq = s.resetReq := by
  induction recs with
  | nil =>
      intro s h1 h2 h3
      exact ⟨h3, h1, h2, rfl, rfl, rfl, rfl⟩
  | cons r rest ih =>
      intro s h1 h2 h3
      have hstep : Back_Reverse s = { s with brCounter := 0, stack := rest } := by
        rw [backReverse_fire_pop_stop s r rest (by rw [h2]; exact Nat.zero_le _)
              h3 h1, h3]
        rfl
      simp only [List.length_cons, Function.iterate_succ_apply, hstep]
      exact ih { s with brCounter := 0, stack := rest } h1 h2 rfl

/-- C10 — replay entered with the remembered inverse equal to `STOP`:
the `REVERSE` command zeroes `ovfCounts` and leaves `reversed_mode`
untouched; from then on every overflow pops exactly one record while never
commanding the motors, never writing the speed compare register, and never
loading a record's `ovfCounts`/`TCNT0`; when the stack empties, the next
overflow stops the motors and requests the hard reset. -/
theorem C10_stop_mode_replay :
    (∀ s : Sys, (UART_Get_Cmd REVERSE s).ovfCounts = 0 ∧
      (UART_Get_Cmd REVERSE s).reversed_mode = s.reversed_mode) ∧
    (∀ (s : Sys) (r : reverse) (rest : List reverse),
      s.reversed_mode = STOP → s.ovfCounts = 0 → s.stack = r :: rest →
      Back_Reverse s = { s with brCounter := 0, stack := rest }) ∧
    (∀ s : Sys, s.reversed_mode = STOP → s.ovfCounts = 0 → s.stack = [] →
      Back_Reverse s =
        { s with brCounter := 0, motor := MotorAct.bothStop,
                 resetReq := true }) ∧
    (∀ s : Sys, s.reversed_mode = STOP → s.ovfCounts = 0 →
      (Back_Reverse^[s.stack.length] s).stack = [] ∧
      (Back_Reverse^[s.stack.length] s).motor = s.motor ∧
      (Back_Reverse^[s.stack.length] s).ocr2 = s.ocr2 ∧
      (Back_Reverse^[s.stack.length] s).tcnt0 = s.tcnt0 ∧
      (Back_Reverse^[s.stack.length] s).ovfCounts = 0 ∧
      (Back_Reverse^[s.stack.length + 1] s).resetReq = true ∧
      (Back_Reverse^[s.stack.length + 1] s).motor = MotorAct.bothStop) := by
  refine ⟨?_, ?_, ?_, ?_⟩
  · intro s
    rw [uart_reverse_cmd]
    exact ⟨rfl, saveMove_rm _⟩
  · intro s r rest h1 h2 h3
    rw [backReverse_fire_pop_stop s r rest (by rw [h2]; exact Nat.zero_le _)
          h3 h1, h3]
    rfl
  · intro s h1 h2 h3
    exact backReverse_fire_empty s (by rw [h2]; exact Nat.zero_le _) h3
  · intro s h1 h2
    obtain ⟨ha, hb, hc, hd, he, hf, hg⟩ :=
      backReverse_stop_iterate s.stack s h1 h2 rfl
    refine ⟨ha, hd, he, hf, hc, ?_, ?_⟩
    · rw [Function.iterate_succ_apply',
          backReverse_fire_empty _ (by rw [hc]; exact Nat.zero_le _) ha]
    · rw [Function.iterate_succ_apply',
          backReverse_fire_empty _ (by rw [hc]; exact Nat.zero_le _) ha]

/-- Witness for C10 at a concrete two-record stack with the remembered
inverse equal to `STOP`. -/
theorem C10_stop_mode_replay_witness :
    ((UART_Get_Cmd REVERSE APP_Init).ovfCounts = 0 ∧
      (UART_Get_Cmd REVERSE APP_Init).reversed_mode =
        APP_Init.reversed_mode) ∧
    (Back_Reverse { APP_Init with ovfCounts := 0,
                                  stack := [reverse.mk 1 2 3 4] } =
      { APP_Init with ovfCounts := 0, brCounter := 0, stack := [] }) ∧
    ((Back_Reverse^[1] { APP_Init with ovfCounts := 0,
                                       stack := [reverse.mk 1 2 3 4] }).stack =
        [] ∧
      (Back_Reverse^[2] { APP_Init with ovfCounts := 0,
                                        stack := [reverse.mk 1 2 3 4]
                          }).resetReq = true) :=
  ⟨C10_stop_mode_replay.1 APP_Init,
   by
     have h := C10_stop_mode_replay.2.1
       { APP_Init with ovfCounts := 0, stack := [reverse.mk 1 2 3 4] }
       (reverse.mk 1 2 3 4) [] rfl rfl rfl
     exact h,
   by
     have h := C10_stop_mode_replay.2.2.2
       { APP_Init with ovfCounts := 0, stack := [reverse.mk 1 2 3 4] }
       rfl rfl
     exact ⟨h.1, h.2.2.2.2.2.1⟩⟩

/-! ### Claim C2 -/

/-- C2 (amended) — direction inversion: every record the dispatcher pushes
stores, in its 3-bit mode field, the low three bits of the exact inverse
of the motion it superseded — the remembered `reversed_mode`, maintained
as `FORWARD`↔`BACKWARD`, `STEER_LEFT`↔`STEER_RIGHT`, `STOP`↔`STOP` — and
the low three bits determine that inverse uniquely among the five motion
bytes.  (The stored field is the 3-bit truncation of the inverse command
byte, not the byte itself: see the counterexample.) -/
theorem C2_direction_inversion :
    (∀ (b : Nat) (s : Sys), (UART_Get_Cmd b s).stack = s.stack ∨
      (s.reversed_mode ≠ STOP ∧ ∃ g,
        (UART_Get_Cmd b s).stack =
          reverse.mk (s.reversed_mode % 8) (g % 8) (s.g_ovf % 65536)
            (s.tcnt0 % 256) :: s.stack)) ∧
    (∀ s : Sys, (UART_Get_Cmd FORWARD s).reversed_mode = BACKWARD) ∧
    (∀ s : Sys, (UART_Get_Cmd BACKWARD s).reversed_mode = FORWARD) ∧
    (∀ s : Sys, (UART_Get_Cmd STEER_LEFT s).reversed_mode = STEER_RIGHT) ∧
    (∀ s : Sys, (UART_Get_Cmd STEER_RIGHT s).reversed_mode = STEER_LEFT) ∧
    (∀ s : Sys, (UART_Get_Cmd STOP s).reversed_mode = STOP) ∧
    (∀ m n : Nat,
      m ∈ [FORWARD, BACKWARD, STOP, STEER_RIGHT, STEER_LEFT] →
      n ∈ [FORWARD, BACKWARD, STOP, STEER_RIGHT, STEER_LEFT] →
      m % 8 = n % 8 → m = n) := by
  refine ⟨?_, ?_, ?_, ?_, ?_, ?_, ?_⟩
  · intro b s
    rcases uart_stack_cases b s with h | ⟨h1, h2, g, h3⟩
    · exact Or.inl h
    · exact Or.inr ⟨h1, g, h3⟩
  · intro s; rw [uart_forward]
  · intro s; rw [uart_backward]
  · intro s; rw [uart_steer_left]
  · intro s; rw [uart_steer_right]
  · intro s; rw [uart_stop]
  · intro m n hm hn h
    fin_cases hm <;> fin_cases hn <;>
      first
      | rfl
      | exact absurd h (by decide)

/-- Witness for C2: a `STOP` command superseding a `BACKWARD`-inverse
motion pushes a record, `FORWARD` remembers `BACKWARD` as its inverse, and
truncation is injective on the command bytes. -/
theorem C2_direction_inversion_witness :
    ((UART_Get_Cmd STOP { APP_Init with reversed_mode := BACKWARD }).stack =
        ({ APP_Init with reversed_mode := BACKWARD } : Sys).stack ∨
      (({ APP_Init with reversed_mode := BACKWARD } : Sys).reversed_mode ≠
          STOP ∧ ∃ g,
        (UART_Get_Cmd STOP
            { APP_Init with reversed_mode := BACKWARD }).stack =
          reverse.mk
            (({ APP_Init with
                  reversed_mode := BACKWARD } : Sys).reversed_mode % 8)
            (g % 8)
            (({ APP_Init with
                  reversed_mode := BACKWARD } : Sys).g_ovf % 65536)
            (({ APP_Init with
                  reversed_mode := BACKWARD } : Sys).tcnt0 % 256) ::
          ({ APP_Init with reversed_mode := BACKWARD } : Sys).stack)) ∧
    (UART_Get_Cmd FORWARD APP_Init).reversed_mode = BACKWARD ∧
    FORWARD = FORWARD :=
  ⟨C2_direction_inversion.1 STOP { APP_Init with reversed_mode := BACKWARD },
   C2_direction_inversion.2.1 APP_Init,
   C2_direction_inversion.2.2.2.2.2.2 FORWARD FORWARD (by decide) (by decide)
     rfl⟩

/-- C2 counterexample — the claim says the stored mode field IS the exact
inverse of the superseded motion.  In the concrete run `FORWARD`, one
tick, `STOP`, the pushed record superseded `FORWARD`, whose exact inverse
is `BACKWARD` (byte 50); the stored 3-bit field is 2 = 50 % 8 ≠ 50. -/
theorem C2_counterexample :
    (run APP_Init [Ev.rx FORWARD, Ev.tick, Ev.rx STOP]).stack =
      [reverse.mk 2 1 0 1] ∧
    (reverse.mk 2 1 0 1).mode = 2 ∧ (2 : Nat) ≠ BACKWARD ∧
    BACKWARD % 8 = 2 := by
  decide

/-! ### Claim C1 -/

set_option maxRecDepth 4096 in
/-- C1 — concrete demonstration that the round-trip guarantee fails on
the code (code bug): one `FORWARD` motion held for 2 Timebase ticks, then
`REVERSE`.  The only record is ⟨mode 2, gear 1, ovfs 0, tcnt 2⟩ — recorded
duration 2 ticks.  The first replay overflow pops it but drives `bothStop`
— the 3-bit stored inverse 2 (`BACKWARD` & 7) collides with `MOTOR_STOP`
in `MOTOR_SET_Direction` — instead of the inverse backward motion, and the
replayed leg then lasts exactly 254 ticks (`256·max(ovfs,1) − tcnt`; reset
fires at the 254th tick after the pop and not before), not the recorded
2 ± 1: both halves of the claim fail. -/
theorem C1_roundtrip_failure :
    (run APP_Init [Ev.rx FORWARD, Ev.tick, Ev.tick, Ev.rx REVERSE]).stack =
      [reverse.mk 2 1 0 2] ∧
    (run APP_Init [Ev.rx FORWARD, Ev.tick, Ev.tick, Ev.rx REVERSE,
        Ev.tick]).stack = [] ∧
    (run APP_Init [Ev.rx FORWARD, Ev.tick, Ev.tick, Ev.rx REVERSE,
        Ev.tick]).motor = MotorAct.bothStop ∧
    MOTOR_SET_Direction MOTOR_BACKWARD = MotorAct.bothBackward ∧
    MotorAct.bothStop ≠ MotorAct.bothBackward ∧
    (run APP_Init ([Ev.rx FORWARD, Ev.tick, Ev.tick, Ev.rx REVERSE,
        Ev.tick] ++ List.replicate 253 Ev.tick)).resetReq = false ∧
    (run APP_Init ([Ev.rx FORWARD, Ev.tick, Ev.tick, Ev.rx REVERSE,
        Ev.tick] ++ List.replicate 254 Ev.tick)).resetReq = true ∧
    256 * max (reverse.mk 2 1 0 2).ovfs 1 - (reverse.mk 2 1 0 2).tcnt =
      254 ∧
    256 * (reverse.mk 2 1 0 2).ovfs + (reverse.mk 2 1 0 2).tcnt = 2 ∧
    254 > 2 + 1 := by
  decide

end DeliveryCar
